import Mathlib

/-!
Verification of the openclaw Telegram polling/dispatch supervisor
(`src/telegram/monitor.ts`) against its natural-language specification.

The embedding models the supervisor's pure decision logic directly from the
TypeScript source: the checkpoint persist guard (`persistUpdateId`), the
failure classifier (`isGetUpdatesConflict`, `NETWORK_ERROR_SNIPPETS`,
`isNetworkRelatedError`), the credential-change catch-up performed at startup,
the backfill of the token hash for legacy state, and the poll restart loop.
Asynchronous effects (HTTP fetches, store writes, the abortable sleep) are
modelled as explicit inputs/outputs: a probe oracle, lists of attempted write
operations, and abort flags sampled at the suspension points of the loop.

Modules of the repository that are not part of the provided source tree
(`update-offset-store.ts`, `infra/backoff.ts`, `network-errors.ts`) are
modelled from the spec; each such definition carries a doc comment starting
with `Modelled from the spec:`.
-/

namespace OpenClaw

/-! ## Checkpoint persist guard (`persistUpdateId` in monitor.ts)

```ts
const persistUpdateId = async (updateId: number) => {
  if (lastUpdateId !== null && updateId <= lastUpdateId) {
    return;
  }
  lastUpdateId = updateId;
  try {
    await writeTelegramUpdateOffset({ accountId, updateId, tokenHash });
  } catch (err) {
    // logged, not rethrown
  }
};
```

The in-memory checkpoint `lastUpdateId` is `Option Int` (`none` = JS `null`).
The observable effects of one call are recorded as an ordered action list:
the in-memory assignment, the attempted store write, and (when the write
fails) the log line emitted by the catch block. -/

/-- One observable action of a `persistUpdateId` call, in program order. -/
inductive PersistAction where
  | setMemory (id : Int)
  | storeWrite (id : Int)
  | logStoreFailure
deriving DecidableEq, Repr

/-- The checkpoint persist callback: given the current in-memory checkpoint,
the delivered update id, and whether the store write would fail, returns the
new in-memory checkpoint and the ordered list of actions performed.
Mirrors `persistUpdateId` in `monitor.ts` line by line. -/
def persistUpdateId (lastUpdateId : Option Int) (updateId : Int)
    (writeFails : Bool) : Option Int × List PersistAction :=
  match lastUpdateId with
  | some prev =>
    if updateId ≤ prev then
      (some prev, [])
    else
      (some updateId,
        PersistAction.setMemory updateId :: PersistAction.storeWrite updateId ::
          (if writeFails then [PersistAction.logStoreFailure] else []))
  | none =>
    (some updateId,
      PersistAction.setMemory updateId :: PersistAction.storeWrite updateId ::
        (if writeFails then [PersistAction.logStoreFailure] else []))

/-- Process a sequence of delivered update ids through `persistUpdateId`,
threading the in-memory checkpoint and accumulating the performed actions.
`writeFails` gives, per call, whether that store write fails. -/
def processUpdates (lastUpdateId : Option Int) (ids : List Int)
    (writeFails : Int → Bool) : Option Int × List PersistAction :=
  match ids with
  | [] => (lastUpdateId, [])
  | id :: rest =>
    let step := persistUpdateId lastUpdateId id (writeFails id)
    let tail := processUpdates step.1 rest writeFails
    (tail.1, step.2 ++ tail.2)

/-- The expected checkpoint value: maximum of the initial checkpoint and all
delivered ids (`none` only when there is no initial checkpoint and no id). -/
def checkpointMax (init : Option Int) (ids : List Int) : Option Int :=
  ids.foldl (fun acc i => some (max (acc.getD i) i)) init

/-! ## String helpers (JS `String.prototype.includes` on lowercased text) -/

/-- `charsHavePre pat s`: `pat` is a prefix of `s` (character lists). -/
def charsHavePre : List Char → List Char → Bool
  | [], _ => true
  | _ :: _, [] => false
  | p :: ps, c :: cs => p == c && charsHavePre ps cs

/-- `charsHaveSub s pat`: `pat` occurs as a contiguous substring of `s`. -/
def charsHaveSub : List Char → List Char → Bool
  | [], pat => charsHavePre pat []
  | c :: rest, pat => charsHavePre pat (c :: rest) || charsHaveSub rest pat

/-- JS `s.includes(pat)` on strings. -/
def strIncludes (s pat : String) : Bool :=
  charsHaveSub s.data pat.data

/-- JS `s.toLowerCase()` (character-wise ASCII lowering, which agrees with
JS on the ASCII error texts the classifier inspects). -/
def jsToLower (s : String) : String :=
  ⟨s.data.map Char.toLower⟩

/-! ## Failure classifier (`isGetUpdatesConflict`, `isNetworkRelatedError`) -/

/-- A caught error value as the classifier in `monitor.ts` inspects it.
`error_code`/`errorCode`/`description`/`method`/`message` are the optional
fields read by `isGetUpdatesConflict` (absent fields are `none`).
`rendered` — Modelled from the spec: the output of `formatErrorMessage`
(`infra/errors.ts`, not in the source tree), "the rendered error message".
`transportRecoverable` — Modelled from the spec: the verdict of
`isRecoverableTelegramNetworkError` (`telegram/network-errors.ts`, not in the
source tree), "a classifier the transport itself exposes". Errors that are
JS non-objects are represented with all structured fields `none` (the source
returns `false` from `isGetUpdatesConflict` for them). -/
structure JsErr where
  error_code : Option Int
  errorCode : Option Int
  description : Option String
  method : Option String
  message : Option String
  rendered : String
  transportRecoverable : Bool
deriving DecidableEq, Repr

/-- ```ts
const errorCode = typed.error_code ?? typed.errorCode;
if (errorCode !== 409) { return false; }
const haystack = [typed.method, typed.description, typed.message]
  .filter(isString).join(" ").toLowerCase();
return haystack.includes("getupdates");
``` -/
def isGetUpdatesConflict (e : JsErr) : Bool :=
  match e.error_code <|> e.errorCode with
  | none => false
  | some code =>
    if code != 409 then false
    else
      strIncludes
        (jsToLower (String.intercalate " " ([e.method, e.description, e.message].filterMap id)))
        "getupdates"

/-- The fixed substring list of `monitor.ts`. -/
def NETWORK_ERROR_SNIPPETS : List String :=
  ["fetch failed", "network", "timeout", "socket", "econnreset", "econnrefused", "undici"]

/-- ```ts
const message = formatErrorMessage(err).toLowerCase();
if (!message) { return false; }
return NETWORK_ERROR_SNIPPETS.some((snippet) => message.includes(snippet));
``` -/
def isNetworkRelatedError (e : JsErr) : Bool :=
  let message := jsToLower e.rendered
  if message == "" then false
  else NETWORK_ERROR_SNIPPETS.any fun snippet => strIncludes message snippet

/-- The three failure classes of the spec. -/
inductive ErrClass where
  | conflict
  | recoverableNetwork
  | fatal
deriving DecidableEq, Repr

/-- Classification as the restart loop in `monitor.ts` performs it: `conflict`
when `isGetUpdatesConflict` holds (this is the `reason` precedence of the
source), `recoverableNetwork` when the transport classifier or the snippet
match holds, `fatal` otherwise (`!isConflict && !isRecoverable &&
!isNetworkError` throws). -/
def classify (e : JsErr) : ErrClass :=
  if isGetUpdatesConflict e then ErrClass.conflict
  else if e.transportRecoverable || isNetworkRelatedError e then ErrClass.recoverableNetwork
  else ErrClass.fatal

/-- The conflict predicate as the claim words it: error code 409 and the
method/description field contains "getupdates" case-insensitively (the
`message` field not consulted). Stated for comparison with
`isGetUpdatesConflict`, which also consults `message`. -/
def claimConflict (e : JsErr) : Bool :=
  match e.error_code <|> e.errorCode with
  | none => false
  | some code =>
    if code != 409 then false
    else
      strIncludes (jsToLower (String.intercalate " " ([e.method, e.description].filterMap id)))
        "getupdates"

/-! ## Startup: stored state, credential-change catch-up, legacy backfill

`monitor.ts` startup sequence (abridged):

```ts
const storedState = await readTelegramUpdateOffsetState({ accountId });
let lastUpdateId = storedState?.lastUpdateId ?? null;
if (storedState?.tokenHash && storedState.tokenHash !== tokenHash) {
  try {
    const res = await fetchWithTimeout(base + "/getUpdates?limit=100&timeout=0", 5000);
    const json = await res.json();
    if (res.ok && json?.ok) {
      const ids = (json.result ?? []).map((u) => u.update_id)
        .filter((v) => typeof v === "number" && Number.isFinite(v));
      const maxId = ids.length ? Math.max(...ids) : null;
      lastUpdateId = typeof maxId === "number" ? maxId : null;
    } else { log; lastUpdateId = null; }
  } catch (err) { log; lastUpdateId = null; }
} else if (storedState?.tokenHash == null && storedState?.lastUpdateId != null) {
  try {
    await writeTelegramUpdateOffset({ accountId, updateId: storedState.lastUpdateId, tokenHash });
  } catch { /* best-effort */ }
}
```
-/

/-- The state returned by the update-offset store for one account: the stored
checkpoint id and the stored credential fingerprint (token hash), each
possibly absent. -/
structure StoredState where
  lastUpdateId : Option Int
  tokenHash : Option String
deriving DecidableEq, Repr

/-- The on-disk checkpoint record `{version, lastUpdateId, tokenHash?}`. -/
structure RawRecord where
  version : Nat
  lastUpdateId : Option Int
  tokenHash : Option String
deriving DecidableEq, Repr

/-- Modelled from the spec: decoding of the persisted checkpoint record by
`readTelegramUpdateOffsetState` (`telegram/update-offset-store.ts`, not in the
source tree): a version-1 record lacks the fingerprint field and is read as
fingerprint unknown (`none`), never an error; the repository's store test
(`src/unnamed/part_000`) checks exactly this for `{version:1, lastUpdateId:123}`. -/
def decodeStoredRecord (r : RawRecord) : StoredState :=
  { lastUpdateId := r.lastUpdateId
    tokenHash := if r.version == 1 then none else r.tokenHash }

/-- Modelled from the spec: a checkpoint-store failure (`StorageError`,
"checkpoint read/write failure"). -/
structure StorageError where
  msg : String
deriving DecidableEq, Repr

/-- The decoded body of the catch-up `getUpdates` HTTP response: `res.ok`,
the JSON `ok` flag, and the `update_id` field of each entry of `json.result`
(`none` when the field is absent; a missing `result` field is `[]`). -/
structure CatchUpResponse where
  resOk : Bool
  jsonOk : Bool
  result : List (Option Int)
deriving DecidableEq, Repr

/-- The `limit` query parameter of the catch-up probe
(`getUpdates?limit=100&timeout=0`). -/
def catchUpProbeLimit : Nat := 100

/-- The catch-up block's outcome: the new `lastUpdateId` and whether a
catch-up failure was logged. A transport failure (the `catch` branch) or a
non-ok response logs and yields `none`; an ok response yields the maximum
`update_id` when at least one is present, otherwise `none` (no log). -/
def catchUpResult (probe : Except Unit CatchUpResponse) : Option Int × Bool :=
  match probe with
  | Except.error _ => (none, true)
  | Except.ok r =>
    if r.resOk && r.jsonOk then
      match r.result.filterMap id with
      | [] => (none, false)
      | x :: xs => (some (xs.foldl max x), false)
    else (none, true)

/-- A backfill write attempted against the update-offset store. -/
structure BackfillWrite where
  updateId : Int
  tokenHash : String
deriving DecidableEq, Repr

/-- The guard `storedState?.tokenHash && storedState.tokenHash !== tokenHash`:
the stored hash is truthy (present and non-empty) and differs from the
current one. -/
def tokenHashMismatch (storedHash : Option String) (tokenHash : String) : Bool :=
  match storedHash with
  | some h => !(h == "") && !(h == tokenHash)
  | none => false

/-- The startup checkpoint logic of `monitor.ts` after the store read: the
initial in-memory `lastUpdateId` and the list of backfill writes attempted.
On a credential-fingerprint mismatch the probe is consulted (with
`catchUpProbeLimit`); on a legacy state (no stored hash, an id present) the
current hash is backfilled at the same id, inside `try {} catch {}` — a
failing write has no observable effect, which is why the result type has no
error case. -/
def startupCheckpoint (stored : Option StoredState) (tokenHash : String)
    (probe : Nat → Except Unit CatchUpResponse) : Option Int × List BackfillWrite :=
  let last := stored.bind fun s => s.lastUpdateId
  let storedHash := stored.bind fun s => s.tokenHash
  if tokenHashMismatch storedHash tokenHash then
    ((catchUpResult (probe catchUpProbeLimit)).1, [])
  else
    match storedHash, last with
    | none, some id => (some id, [{ updateId := id, tokenHash := tokenHash }])
    | _, _ => (last, [])

/-- The startup sequence including the store read. Modelled from the spec:
`readTelegramUpdateOffsetState` (not in the source tree) "fails with
StorageError only on unreadable/corrupt state; absence of any prior state is
a normal null result". `monitor.ts` awaits it with no surrounding
`try`/`catch`, so a read error propagates out of `monitorTelegramProvider`. -/
def startupFromRead (readResult : Except StorageError (Option StoredState))
    (tokenHash : String) (probe : Nat → Except Unit CatchUpResponse) :
    Except StorageError (Option Int × List BackfillWrite) :=
  match readResult with
  | Except.error e => Except.error e
  | Except.ok stored => Except.ok (startupCheckpoint stored tokenHash probe)

/-! ## Backoff policy -/

/-- A restart backoff policy (`initialMs`/`maxMs`/`factor`/`jitter` in the
source). Durations are exact rationals. -/
structure BackoffPolicy where
  initialMs : ℚ
  maxMs : ℚ
  factor : ℚ
  jitter : ℚ
deriving DecidableEq, Repr

/-- The policy constant of `monitor.ts`. -/
def TELEGRAM_POLL_RESTART_POLICY : BackoffPolicy :=
  { initialMs := 2000, maxMs := 30000, factor := 1.8, jitter := 0.25 }

/-- Modelled from the spec: the un-jittered delay of `computeBackoff`
(`infra/backoff.ts`, not in the source tree) for attempt `n` is
`min(maxDelay, initialDelay * growthFactor^(n-1))`. -/
def backoffBase (p : BackoffPolicy) (n : Nat) : ℚ :=
  min p.maxMs (p.initialMs * p.factor ^ (n - 1))

/-- Modelled from the spec: the jittered delay perturbs the clamped base by
a relative jitter `r` drawn from `[-jitter, jitter]` per call. -/
def computeBackoff (p : BackoffPolicy) (n : Nat) (r : ℚ) : ℚ :=
  backoffBase p n * (1 + r)

/-! ## The poll restart loop

```ts
let restartAttempts = 0;
while (!opts.abortSignal?.aborted) {
  const runner = run(bot, createTelegramRunnerOptions(cfg));
  try {
    await runner.task();
    return;
  } catch (err) {
    if (opts.abortSignal?.aborted) { throw err; }
    const isConflict = isGetUpdatesConflict(err);
    const isRecoverable = isRecoverableTelegramNetworkError(err, { context: "polling" });
    const isNetworkError = isNetworkRelatedError(err);
    if (!isConflict && !isRecoverable && !isNetworkError) { throw err; }
    restartAttempts += 1;
    const delayMs = computeBackoff(TELEGRAM_POLL_RESTART_POLICY, restartAttempts);
    log;
    try { await sleepWithAbort(delayMs, opts.abortSignal); }
    catch (sleepErr) { if (opts.abortSignal?.aborted) { return; } throw sleepErr; }
  }
}
```

Each loop iteration is driven by an environment record: the abort flag as
sampled at the loop head, the worker's outcome, the abort flag as sampled in
the `catch` block, and whether the abort signal fires during the backoff
sleep. `sleepWithAbort` (`infra/backoff.ts`, not in the source tree) is
Modelled from the spec: the sleep observes the cancellation signal and
returns immediately, discarding the remaining delay, when cancellation
fires — modelled as throwing exactly when the signal aborts during the
sleep, which the `catch (sleepErr)` branch turns into `return`. -/

/-- How one poll worker run ends: `runner.task()` resolves, or rejects with
an error. -/
inductive WorkerOutcome where
  | success
  | failure (e : JsErr)
deriving DecidableEq, Repr

/-- The environment of one loop iteration: the abort signal sampled at the
three suspension points, and the worker outcome. -/
structure IterEnv where
  abortAtHead : Bool
  outcome : WorkerOutcome
  abortAtCatch : Bool
  abortDuringSleep : Bool
deriving DecidableEq, Repr

/-- Observable events of the loop: a poll worker is started; a backoff delay
is computed for the given attempt number (the second argument handed to
`computeBackoff`). -/
inductive LoopEvent where
  | startWorker
  | backoff (attempt : Nat)
deriving DecidableEq, Repr

/-- How the loop ends: a normal return, a thrown error, or the supplied
iteration trace was exhausted with the loop still running. -/
inductive LoopResult where
  | returned
  | threw (e : JsErr)
  | ranOut
deriving DecidableEq, Repr

/-- The restart loop of `monitorTelegramProvider`, branch for branch:
head abort check, worker run, success return, catch-block abort rethrow,
fatal throw, attempt increment, backoff computation, abortable sleep. -/
def runLoop (restartAttempts : Nat) : List IterEnv → LoopResult × List LoopEvent
  | [] => (LoopResult.ranOut, [])
  | env :: rest =>
    if env.abortAtHead then (LoopResult.returned, [])
    else
      match env.outcome with
      | WorkerOutcome.success => (LoopResult.returned, [LoopEvent.startWorker])
      | WorkerOutcome.failure e =>
        if env.abortAtCatch then (LoopResult.threw e, [LoopEvent.startWorker])
        else if !isGetUpdatesConflict e && !e.transportRecoverable && !isNetworkRelatedError e then
          (LoopResult.threw e, [LoopEvent.startWorker])
        else
          let attempts := restartAttempts + 1
          if env.abortDuringSleep then
            (LoopResult.returned, [LoopEvent.startWorker, LoopEvent.backoff attempts])
          else
            let tail := runLoop attempts rest
            (tail.1, LoopEvent.startWorker :: LoopEvent.backoff attempts :: tail.2)

/-! ## Concrete inputs used by witnesses and counterexamples -/

/-- A fatal error: no conflict fields, no recoverable-network signal. -/
def eFatal : JsErr :=
  { error_code := none, errorCode := none, description := none, method := none,
    message := some "[object Object]", rendered := "bad webhook: unauthorized",
    transportRecoverable := false }

/-- A recoverable network error (its rendered message matches the
`"timeout"` snippet). -/
def eRec : JsErr :=
  { error_code := none, errorCode := none, description := none, method := none,
    message := some "request timeout", rendered := "request timeout",
    transportRecoverable := false }

/-- A 409 error whose `method`/`description` fields are absent but whose
`message` mentions the poll endpoint. -/
def eMsgConflict : JsErr :=
  { error_code := some 409, errorCode := none, description := none, method := none,
    message := some "conflict: terminated by other getupdates request", rendered := "",
    transportRecoverable := false }

/-- Abbreviation for building an `IterEnv`: abort-at-head flag, worker
outcome, abort-at-catch flag, abort-during-sleep flag. -/
def mkEnv (h : Bool) (o : WorkerOutcome) (c s : Bool) : IterEnv :=
  { abortAtHead := h, outcome := o, abortAtCatch := c, abortDuringSleep := s }

/-- An iteration whose worker fails with the recoverable error `eRec`,
with no cancellation anywhere. -/
def recEnv : IterEnv :=
  { abortAtHead := false, outcome := WorkerOutcome.failure eRec,
    abortAtCatch := false, abortDuringSleep := false }

/-- A worker success followed by a recoverable worker failure, with no
cancellation anywhere. -/
def traceSuccessThenFailure : List IterEnv :=
  [{ abortAtHead := false, outcome := WorkerOutcome.success,
     abortAtCatch := false, abortDuringSleep := false },
   recEnv]

/-- The loop events of `n` consecutive recoverable failures starting from
attempt counter `a`: a worker start and a backoff at attempt `a+1`, then
`a+2`, and so on — the counter is never reset. -/
def expectedFailureEvents (a : Nat) : Nat → List LoopEvent
  | 0 => []
  | n + 1 =>
    LoopEvent.startWorker :: LoopEvent.backoff (a + 1) :: expectedFailureEvents (a + 1) n

/-- A probe answering with pending update ids 10, 7, 15. -/
def probeFifteen : Nat → Except Unit CatchUpResponse :=
  fun _ => Except.ok { resOk := true, jsonOk := true, result := [some 10, some 7, some 15] }

/-- A probe whose transport fails. -/
def probeFailing : Nat → Except Unit CatchUpResponse :=
  fun _ => Except.error ()

/-- The legacy on-disk record `{version:1, lastUpdateId:123}`. -/
def legacyRecord : RawRecord :=
  { version := 1, lastUpdateId := some 123, tokenHash := none }

/-! ## Helper lemmas -/

theorem persistUpdateId_fst (last : Option Int) (i : Int) (wf : Bool) :
    (persistUpdateId last i wf).1 = some (max (last.getD i) i) := by
  cases last with
  | none => simp [persistUpdateId]
  | some prev =>
    by_cases h : i ≤ prev
    · simp [persistUpdateId, h, max_eq_left h]
    · simp [persistUpdateId, h, max_eq_right (le_of_not_le h)]

theorem processUpdates_fst (ids : List Int) :
    ∀ (init : Option Int) (wf : Int → Bool),
      (processUpdates init ids wf).1 = checkpointMax init ids := by
  induction ids with
  | nil => intro init wf; rfl
  | cons i rest ih =>
    intro init wf
    show (processUpdates (persistUpdateId init i (wf i)).1 rest wf).1 = _
    rw [ih, persistUpdateId_fst]
    rfl

theorem checkpointMax_isSome (ids : List Int) :
    ∀ a : Int, (checkpointMax (some a) ids).isSome = true := by
  induction ids with
  | nil => intro a; rfl
  | cons i rest ih => intro a; exact ih (max a i)

theorem init_le_foldl_max (xs : List Int) : ∀ x : Int, x ≤ xs.foldl max x := by
  induction xs with
  | nil => intro x; exact le_refl x
  | cons z zs ih => intro x; exact le_trans (le_max_left x z) (ih (max x z))

theorem foldl_max_mem (xs : List Int) : ∀ x : Int, xs.foldl max x ∈ x :: xs := by
  induction xs with
  | nil => intro x; simp
  | cons z zs ih =>
    intro x
    simp only [List.foldl_cons]
    rcases List.mem_cons.mp (ih (max x z)) with h1 | h1
    · rw [h1]
      rcases max_choice x z with h2 | h2 <;> rw [h2] <;> simp
    · exact List.mem_cons_of_mem _ (List.mem_cons_of_mem _ h1)

theorem mem_le_foldl_max (xs : List Int) :
    ∀ x y : Int, y ∈ x :: xs → y ≤ xs.foldl max x := by
  induction xs with
  | nil =>
    intro x y hy
    simp only [List.foldl_nil]
    simp only [List.mem_singleton] at hy
    exact le_of_eq hy
  | cons z zs ih =>
    intro x y hy
    simp only [List.foldl_cons]
    rcases List.mem_cons.mp hy with rfl | hy1
    · exact le_trans (le_max_left y z) (init_le_foldl_max zs (max y z))
    · rcases List.mem_cons.mp hy1 with rfl | hy2
      · exact le_trans (le_max_right x y) (init_le_foldl_max zs (max x y))
      · exact ih (max x z) y (List.mem_cons_of_mem _ hy2)

theorem classify_fatal_iff (e : JsErr) :
    classify e = ErrClass.fatal ↔
      (!isGetUpdatesConflict e && !e.transportRecoverable && !isNetworkRelatedError e) = true := by
  cases hc : isGetUpdatesConflict e <;> cases ht : e.transportRecoverable <;>
    cases hn : isNetworkRelatedError e <;> simp [classify, hc, ht, hn]

theorem runLoop_cons_head_events (a : Nat) (env : IterEnv) (rest : List IterEnv)
    (h : env.abortAtHead = false) :
    ∃ evs, (runLoop a (env :: rest)).2 = LoopEvent.startWorker :: evs := by
  cases hout : env.outcome with
  | success => exact ⟨[], by simp [runLoop, h, hout]⟩
  | failure e =>
    by_cases hc : env.abortAtCatch = true
    · exact ⟨[], by simp [runLoop, h, hout, hc]⟩
    · by_cases hf :
        (!isGetUpdatesConflict e && !e.transportRecoverable && !isNetworkRelatedError e) = true
      · exact ⟨[], by simp [runLoop, h, hout, hc, hf]⟩
      · by_cases hs : env.abortDuringSleep = true
        · exact ⟨[LoopEvent.backoff (a + 1)], by simp [runLoop, h, hout, hc, hf, hs]⟩
        · exact ⟨LoopEvent.backoff (a + 1) :: (runLoop (a + 1) rest).2,
            by simp [runLoop, h, hout, hc, hf, hs]⟩

theorem runLoop_recoverable_step (a : Nat) (e : JsErr) (rest : List IterEnv)
    (hcond : (!isGetUpdatesConflict e && !e.transportRecoverable &&
      !isNetworkRelatedError e) = false) :
    runLoop a (mkEnv false (WorkerOutcome.failure e) false false :: rest)
      = ((runLoop (a + 1) rest).1,
          LoopEvent.startWorker :: LoopEvent.backoff (a + 1) :: (runLoop (a + 1) rest).2) := by
  generalize rest = L
  simp [runLoop, mkEnv, hcond]

/-! ## Claim theorems -/

/-- C1: Checkpoint monotonicity. After processing any sequence of delivered
event ids, the in-memory checkpoint equals the maximum of the initial
checkpoint and all delivered ids; persisting an id less than or equal to the
current non-null in-memory checkpoint is a no-op (no in-memory change, no
store write); a strictly greater id first updates the in-memory checkpoint
and only then attempts the store write. -/
theorem checkpoint_monotonicity :
    (∀ (init : Option Int) (ids : List Int) (wf : Int → Bool),
        (processUpdates init ids wf).1 = checkpointMax init ids)
  ∧ (∀ (prev i : Int) (wf : Bool), i ≤ prev →
        persistUpdateId (some prev) i wf = (some prev, []))
  ∧ (∀ (prev i : Int) (wf : Bool), prev < i →
        persistUpdateId (some prev) i wf
          = (some i, PersistAction.setMemory i :: PersistAction.storeWrite i ::
              (if wf then [PersistAction.logStoreFailure] else []))) := by
  refine ⟨fun init ids wf => processUpdates_fst ids init wf, ?_, ?_⟩
  · intro prev i wf h
    simp [persistUpdateId, h]
  · intro prev i wf h
    simp [persistUpdateId, not_le.mpr h]

/-- C1 witness: persisting 456 over a stored 500 is a no-op; persisting 501
updates memory first and then attempts the write (here a failing one, which
is only logged). -/
theorem checkpoint_monotonicity_witness :
    persistUpdateId (some 500) 456 false = (some 500, []) ∧
    persistUpdateId (some 500) 501 true
      = (some 501, [PersistAction.setMemory 501, PersistAction.storeWrite 501,
          PersistAction.logStoreFailure]) :=
  ⟨checkpoint_monotonicity.2.1 500 456 false (by decide),
   checkpoint_monotonicity.2.2 500 501 true (by decide)⟩

/-- C10: When the in-memory checkpoint is null, the first persisted id is
always accepted and persisted whatever its value (the strictly-greater guard
does not apply to the null state); once the checkpoint is a number, no
sequence of persist calls ever returns it to null. -/
theorem null_checkpoint_accepts_first_id :
    (∀ (i : Int) (wf : Bool),
        persistUpdateId none i wf
          = (some i, PersistAction.setMemory i :: PersistAction.storeWrite i ::
              (if wf then [PersistAction.logStoreFailure] else [])))
  ∧ (∀ (a : Int) (ids : List Int) (wf : Int → Bool),
        ((processUpdates (some a) ids wf).1).isSome = true) := by
  refine ⟨fun i wf => rfl, fun a ids wf => ?_⟩
  rw [processUpdates_fst]
  exact checkpointMax_isSome ids a

/-- C6 helper: the exact characterisation of `isGetUpdatesConflict`. -/
theorem isGetUpdatesConflict_iff (e : JsErr) :
    isGetUpdatesConflict e = true ↔
      ((e.error_code <|> e.errorCode) = some 409 ∧
        strIncludes
          (jsToLower (String.intercalate " "
            ([e.method, e.description, e.message].filterMap id))) "getupdates" = true) := by
  unfold isGetUpdatesConflict
  cases hcode : (e.error_code <|> e.errorCode) with
  | none => simp
  | some code =>
    by_cases h : code = (409 : Int)
    · subst h; simp
    · simp [h]

/-- C6 counterexample: an error with code 409 whose `method` and
`description` fields are absent but whose `message` mentions the poll
endpoint is classified as a conflict by the code, while the claim's
method/description-only condition does not hold. -/
theorem conflict_message_field_counterexample :
    classify eMsgConflict = ErrClass.conflict ∧ claimConflict eMsgConflict = false := by
  decide

/-- C6 amended: classification is a total deterministic function yielding
exactly one of conflict, recoverableNetwork, fatal; conflict holds iff the
error code (`error_code ?? errorCode`) is 409 and the concatenation of the
method, description, and message fields case-insensitively contains
"getupdates"; recoverableNetwork holds iff there is no conflict and either
the transport's own classifier marks the error recoverable or the rendered
message matches one of the fixed snippets; everything else is fatal. -/
theorem failure_classifier_contract (e : JsErr) :
    (classify e = ErrClass.conflict ∨ classify e = ErrClass.recoverableNetwork ∨
        classify e = ErrClass.fatal)
  ∧ (classify e = ErrClass.conflict ↔ isGetUpdatesConflict e = true)
  ∧ (isGetUpdatesConflict e = true ↔
        ((e.error_code <|> e.errorCode) = some 409 ∧
          strIncludes
            (jsToLower (String.intercalate " "
              ([e.method, e.description, e.message].filterMap id))) "getupdates" = true))
  ∧ (classify e = ErrClass.recoverableNetwork ↔
        (isGetUpdatesConflict e = false ∧
          (e.transportRecoverable = true ∨ isNetworkRelatedError e = true)))
  ∧ (classify e = ErrClass.fatal ↔
        (isGetUpdatesConflict e = false ∧ e.transportRecoverable = false ∧
          isNetworkRelatedError e = false)) := by
  refine ⟨?_, ?_, isGetUpdatesConflict_iff e, ?_, ?_⟩ <;>
    cases hc : isGetUpdatesConflict e <;> cases ht : e.transportRecoverable <;>
      cases hn : isNetworkRelatedError e <;> simp [classify, hc, ht, hn]

/-- C3: A fatal-classified worker error terminates the loop by propagating
with no restart attempt; if cancellation is already active when the worker
fails, the error is propagated and no new worker is started; a conflict- or
recoverableNetwork-classified error with no cancellation triggers a backoff
followed by a fresh worker. -/
theorem restart_policy_classified (a : Nat) (e : JsErr) (rest : List IterEnv) (b : Bool) :
    (classify e = ErrClass.fatal →
        runLoop a (mkEnv false (WorkerOutcome.failure e) false b :: rest)
          = (LoopResult.threw e, [LoopEvent.startWorker]))
  ∧ (runLoop a (mkEnv false (WorkerOutcome.failure e) true b :: rest)
        = (LoopResult.threw e, [LoopEvent.startWorker]))
  ∧ (classify e ≠ ErrClass.fatal → ∀ (env2 : IterEnv) (rest2 : List IterEnv),
        env2.abortAtHead = false →
        ∃ evs, runLoop a (mkEnv false (WorkerOutcome.failure e) false false :: env2 :: rest2)
          = ((runLoop (a + 1) (env2 :: rest2)).1,
              LoopEvent.startWorker :: LoopEvent.backoff (a + 1) ::
                LoopEvent.startWorker :: evs)) := by
  refine ⟨?_, ?_, ?_⟩
  · intro hfatal
    have hcond := (classify_fatal_iff e).mp hfatal
    simp [runLoop, mkEnv, hcond]
  · simp [runLoop, mkEnv]
  · intro hne env2 rest2 h2
    have hcond :
        (!isGetUpdatesConflict e && !e.transportRecoverable && !isNetworkRelatedError e)
          = false := by
      cases h' : (!isGetUpdatesConflict e && !e.transportRecoverable && !isNetworkRelatedError e)
      · rfl
      · exact absurd ((classify_fatal_iff e).mpr h') hne
    obtain ⟨evs, hevs⟩ := runLoop_cons_head_events (a + 1) env2 rest2 h2
    refine ⟨evs, ?_⟩
    rw [runLoop_recoverable_step a e (env2 :: rest2) hcond, hevs]

/-- C3 witness: a fatal error ends the loop with one worker and no backoff;
a recoverable error leads to a backoff at attempt 1 and a second worker. -/
theorem restart_policy_classified_witness :
    runLoop 0 [mkEnv false (WorkerOutcome.failure eFatal) false false]
      = (LoopResult.threw eFatal, [LoopEvent.startWorker]) ∧
    (∃ evs, runLoop 0 [mkEnv false (WorkerOutcome.failure eRec) false false,
        mkEnv false WorkerOutcome.success false false]
      = ((runLoop 1 [mkEnv false WorkerOutcome.success false false]).1,
          LoopEvent.startWorker :: LoopEvent.backoff 1 :: LoopEvent.startWorker :: evs)) :=
  ⟨(restart_policy_classified 0 eFatal [] false).1 (by decide),
   (restart_policy_classified 0 eRec [] false).2.2 (by decide)
     (mkEnv false WorkerOutcome.success false false) [] rfl⟩

/-- C4 counterexample: on the trace where a worker completes successfully
and a later iteration would fail recoverably, the loop returns right after
the success — no backoff at attempt number 1 is ever computed and no further
worker is started, so the attempt counter is not "reset to 0 on every
successful delivery cycle" followed by an attempt-1 backoff as claimed. -/
theorem attempt_counter_reset_counterexample :
    runLoop 0 traceSuccessThenFailure = (LoopResult.returned, [LoopEvent.startWorker]) ∧
    LoopEvent.backoff 1 ∉ (runLoop 0 traceSuccessThenFailure).2 := by
  decide

/-- C4 amended: the attempt counter is initialised to 0 once per monitor
invocation and incremented by one on every classified-recoverable failure;
it is never reset — a successful worker completion terminates the loop
(returns) rather than resetting the counter, and `n` consecutive recoverable
failures compute backoffs at attempt numbers `a+1, a+2, ..., a+n`. -/
theorem attempt_counter_never_reset (a : Nat) (e : JsErr) (rest : List IterEnv) (c s : Bool) :
    (runLoop a (mkEnv false WorkerOutcome.success c s :: rest)
        = (LoopResult.returned, [LoopEvent.startWorker]))
  ∧ (classify e ≠ ErrClass.fatal →
        runLoop a (mkEnv false (WorkerOutcome.failure e) false false :: rest)
          = ((runLoop (a + 1) rest).1,
              LoopEvent.startWorker :: LoopEvent.backoff (a + 1) :: (runLoop (a + 1) rest).2))
  ∧ (∀ n : Nat, (runLoop a (List.replicate n recEnv)).2 = expectedFailureEvents a n) := by
  refine ⟨by simp [runLoop, mkEnv], ?_, ?_⟩
  · intro hne
    have hcond :
        (!isGetUpdatesConflict e && !e.transportRecoverable && !isNetworkRelatedError e)
          = false := by
      cases h' : (!isGetUpdatesConflict e && !e.transportRecoverable && !isNetworkRelatedError e)
      · rfl
      · exact absurd ((classify_fatal_iff e).mpr h') hne
    simp [runLoop, mkEnv, hcond]
  · intro n
    induction n generalizing a with
    | zero => rfl
    | succ m ih =>
      have hcond :
          (!isGetUpdatesConflict eRec && !eRec.transportRecoverable &&
            !isNetworkRelatedError eRec) = false := by decide
      rw [List.replicate_succ]
      show (runLoop a (mkEnv false (WorkerOutcome.failure eRec) false false ::
          List.replicate m recEnv)).2 = _
      rw [runLoop_recoverable_step a eRec (List.replicate m recEnv) hcond]
      show LoopEvent.startWorker :: LoopEvent.backoff (a + 1) ::
          (runLoop (a + 1) (List.replicate m recEnv)).2 = _
      rw [ih (a + 1)]
      rfl

/-- C4 amended witness: from attempt counter 3, a recoverable failure
computes the backoff for attempt 4, not attempt 1. -/
theorem attempt_counter_never_reset_witness :
    runLoop 3 [recEnv] = (LoopResult.ranOut, [LoopEvent.startWorker, LoopEvent.backoff 4]) :=
  (attempt_counter_never_reset 3 eRec [] false false).2.1 (by decide)

/-- C8: If cancellation fires during the backoff sleep, the sleep is aborted
and the loop returns without starting another worker (the event list ends at
that backoff, whatever the rest of the trace holds); an iteration whose head
abort check sees cancellation starts no worker at all; a cancellation active
in the catch block propagates the error with no restart. -/
theorem cancellation_aborts_backoff (a : Nat) (e : JsErr) (o : WorkerOutcome)
    (c s : Bool) (rest : List IterEnv) :
    (classify e ≠ ErrClass.fatal →
        runLoop a (mkEnv false (WorkerOutcome.failure e) false true :: rest)
          = (LoopResult.returned, [LoopEvent.startWorker, LoopEvent.backoff (a + 1)]))
  ∧ (runLoop a (mkEnv true o c s :: rest) = (LoopResult.returned, []))
  ∧ (runLoop a (mkEnv false (WorkerOutcome.failure e) true s :: rest)
        = (LoopResult.threw e, [LoopEvent.startWorker])) := by
  refine ⟨?_, by simp [runLoop, mkEnv], by simp [runLoop, mkEnv]⟩
  intro hne
  have hcond :
      (!isGetUpdatesConflict e && !e.transportRecoverable && !isNetworkRelatedError e)
        = false := by
    cases h' : (!isGetUpdatesConflict e && !e.transportRecoverable && !isNetworkRelatedError e)
    · rfl
    · exact absurd ((classify_fatal_iff e).mpr h') hne
  simp [runLoop, mkEnv, hcond]

/-- C8 witness: cancellation during the backoff sleep after a recoverable
failure returns immediately, even though ten more worker iterations were
still available in the trace. -/
theorem cancellation_aborts_backoff_witness :
    runLoop 0 (mkEnv false (WorkerOutcome.failure eRec) false true :: List.replicate 10 recEnv)
      = (LoopResult.returned, [LoopEvent.startWorker, LoopEvent.backoff 1]) :=
  (cancellation_aborts_backoff 0 eRec WorkerOutcome.success false false
    (List.replicate 10 recEnv)).1 (by decide)

/-- C2: On a stored checkpoint whose fingerprint is present (a non-empty
stored token hash — the source tests JS truthiness) and differs from the
current one, the reconciler's checkpoint is the catch-up probe's result,
with the probe invoked at limit 100; a successful probe with at least one
event yields the maximum observed id; a probe with zero events yields
`none`; a failed probe (transport error or non-ok response) yields `none`
and logs the failure. The reconciler is a total function — it never
throws. -/
theorem credential_change_reconciliation (s : StoredState) (h th : String)
    (probe : Nat → Except Unit CatchUpResponse) :
    (s.tokenHash = some h → h ≠ "" → h ≠ th →
        startupCheckpoint (some s) th probe
          = ((catchUpResult (probe catchUpProbeLimit)).1, []))
  ∧ catchUpProbeLimit = 100
  ∧ (∀ (r : CatchUpResponse) (x : Int) (xs : List Int),
        r.resOk = true → r.jsonOk = true → r.result.filterMap id = x :: xs →
          catchUpResult (Except.ok r) = (some (xs.foldl max x), false) ∧
          xs.foldl max x ∈ x :: xs ∧ ∀ y ∈ x :: xs, y ≤ xs.foldl max x)
  ∧ (∀ r : CatchUpResponse, r.result.filterMap id = [] →
        (catchUpResult (Except.ok r)).1 = none)
  ∧ (∀ r : CatchUpResponse, (r.resOk && r.jsonOk) = false →
        catchUpResult (Except.ok r) = (none, true))
  ∧ (∀ u : Unit, catchUpResult (Except.error u) = (none, true)) := by
  refine ⟨?_, rfl, ?_, ?_, ?_, fun u => rfl⟩
  · intro h1 h2 h3
    have hm : tokenHashMismatch (some h) th = true := by
      simp [tokenHashMismatch, h2, h3]
    simp [startupCheckpoint, h1, hm]
  · intro r x xs h1 h2 h3
    exact ⟨by simp [catchUpResult, h1, h2, h3],
      foldl_max_mem xs x, fun y hy => mem_le_foldl_max xs x y hy⟩
  · intro r h1
    cases ho : r.resOk <;> cases hj : r.jsonOk <;> simp [catchUpResult, ho, hj, h1]
  · intro r hflags
    simp [catchUpResult, hflags]

/-- C2 witness: fingerprint "f1" stored, current "f2", probe answering
[10, 7, 15] reconciles to 15; a failing probe reconciles to `none`. -/
theorem credential_change_reconciliation_witness :
    startupCheckpoint (some { lastUpdateId := some 5, tokenHash := some "f1" }) "f2" probeFifteen
      = (some 15, []) ∧
    catchUpResult
        (Except.ok { resOk := true, jsonOk := true, result := [some 10, some 7, some 15] })
      = (some 15, false) ∧
    (catchUpResult (probeFailing catchUpProbeLimit)).1 = none := by
  have h1 := (credential_change_reconciliation
    { lastUpdateId := some 5, tokenHash := some "f1" } "f1" "f2" probeFifteen).1
    rfl (by decide) (by decide)
  have h3 := ((credential_change_reconciliation
    { lastUpdateId := some 5, tokenHash := some "f1" } "f1" "f2" probeFifteen).2.2.1
    { resOk := true, jsonOk := true, result := [some 10, some 7, some 15] }
    10 [7, 15] rfl rfl (by decide)).1
  have h5 := (credential_change_reconciliation
    { lastUpdateId := some 5, tokenHash := some "f1" } "f1" "f2" probeFifteen).2.2.2.2.2 ()
  refine ⟨?_, ?_, ?_⟩
  · rw [h1]; decide
  · rw [h3]; decide
  · rw [show probeFailing catchUpProbeLimit = Except.error () from rfl, h5]

/-- C9: A version-1 checkpoint record is decoded with its stored id and an
unknown (`none`) fingerprint — never an error; the record
`{version:1, lastUpdateId:123}` yields `lastEventId = 123`; when the stored
fingerprint is absent and an id exists, the startup logic backfills the
store with the current fingerprint at the same id; the backfill sits inside
`try {} catch {}` in the source, so a storage failure there has no
observable effect (the startup function returns a plain value, with no error
case to propagate). -/
theorem legacy_schema_read_and_backfill (th : String)
    (probe : Nat → Except Unit CatchUpResponse) (r : RawRecord) :
    (r.version = 1 →
        decodeStoredRecord r = { lastUpdateId := r.lastUpdateId, tokenHash := none })
  ∧ decodeStoredRecord legacyRecord = { lastUpdateId := some 123, tokenHash := none }
  ∧ (∀ (s : StoredState) (i : Int), s.tokenHash = none → s.lastUpdateId = some i →
        startupCheckpoint (some s) th probe
          = (some i, [{ updateId := i, tokenHash := th }]))
  ∧ startupFromRead (Except.ok (some (decodeStoredRecord legacyRecord))) th probe
      = Except.ok (some 123, [{ updateId := 123, tokenHash := th }]) := by
  refine ⟨?_, rfl, ?_, rfl⟩
  · intro h
    simp [decodeStoredRecord, h]
  · intro s i h1 h2
    simp [startupCheckpoint, tokenHashMismatch, h1, h2]

/-- C9 witness: decoding `{version:1, lastUpdateId:123}` and starting up
with fingerprint "f2" backfills the store at id 123 with "f2". -/
theorem legacy_schema_read_and_backfill_witness :
    decodeStoredRecord legacyRecord = { lastUpdateId := some 123, tokenHash := none } ∧
    startupCheckpoint (some { lastUpdateId := some 123, tokenHash := none }) "f2" probeFailing
      = (some 123, [{ updateId := 123, tokenHash := "f2" }]) :=
  ⟨(legacy_schema_read_and_backfill "f2" probeFailing legacyRecord).1 rfl,
   (legacy_schema_read_and_backfill "f2" probeFailing legacyRecord).2.2.1
     { lastUpdateId := some 123, tokenHash := none } 123 rfl rfl⟩

/-- C5 counterexample: a `StorageError` from the startup checkpoint read
propagates out of the supervisor startup (the read is awaited with no
`try`/`catch` in `monitorTelegramProvider`), instead of being treated as
absence of state — so a checkpoint read failure does terminate the
supervisor. -/
theorem storage_read_failure_terminates :
    startupFromRead (Except.error { msg := "corrupt state" }) "f2" probeFailing
      = Except.error { msg := "corrupt state" } ∧
    startupFromRead (Except.error { msg := "corrupt state" }) "f2" probeFailing
      ≠ Except.ok (startupCheckpoint none "f2" probeFailing) :=
  ⟨rfl, fun hcontra => Except.noConfusion hcontra⟩

/-- C5 amended: checkpoint write failures are never fatal — a failing
persist write changes nothing about the in-memory checkpoint evolution (the
memory update precedes the attempted write and the failure is only logged),
a whole delivery sequence computes the same checkpoints whatever writes
fail, and the legacy backfill write's failure is swallowed; a checkpoint
read failure at startup, however, propagates to the caller. -/
theorem storage_write_failures_nonfatal (last : Option Int) (i : Int) (ids : List Int)
    (init : Option Int) (wf wg : Int → Bool) (b : Bool) :
    ((persistUpdateId last i b).1 = (persistUpdateId last i false).1)
  ∧ (∀ prev : Int, prev < i →
        persistUpdateId (some prev) i true
          = (some i, [PersistAction.setMemory i, PersistAction.storeWrite i,
              PersistAction.logStoreFailure]))
  ∧ ((processUpdates init ids wf).1 = (processUpdates init ids wg).1)
  ∧ (∀ (st : Option StoredState) (th : String) (probe : Nat → Except Unit CatchUpResponse),
        startupFromRead (Except.ok st) th probe = Except.ok (startupCheckpoint st th probe))
  ∧ (∀ (e : StorageError) (th : String) (probe : Nat → Except Unit CatchUpResponse),
        startupFromRead (Except.error e) th probe = Except.error e) := by
  refine ⟨?_, ?_, ?_, fun st th probe => rfl, fun e th probe => rfl⟩
  · rw [persistUpdateId_fst, persistUpdateId_fst]
  · intro prev hp
    simp [persistUpdateId, not_le.mpr hp]
  · rw [processUpdates_fst, processUpdates_fst]

/-- C5 amended witness: a failing persist write for id 9 over checkpoint 5
still advances the in-memory checkpoint to 9 and only logs. -/
theorem storage_write_failures_nonfatal_witness :
    persistUpdateId (some 5) 9 true
      = (some 9, [PersistAction.setMemory 9, PersistAction.storeWrite 9,
          PersistAction.logStoreFailure]) :=
  (storage_write_failures_nonfatal (some 5) 9 [] none
    (fun _ => false) (fun _ => false) true).2.1 5 (by decide)

/-- C7: The poll restart policy is `initialMs=2000, maxMs=30000, factor=1.8,
jitter=0.25`; the un-jittered delay for attempt `n` is
`min(maxDelay, initialDelay * growthFactor^(n-1))` and never exceeds
`maxDelay` however large `n` grows; the jittered delay deviates from the
un-jittered one by at most the jitter fraction of it; attempt 5's
un-jittered delay is `min(30000, 2000 * 1.8^4) = 20995.2`. -/
theorem backoff_policy_bounds :
    (TELEGRAM_POLL_RESTART_POLICY.initialMs = 2000 ∧
      TELEGRAM_POLL_RESTART_POLICY.maxMs = 30000 ∧
      TELEGRAM_POLL_RESTART_POLICY.factor = 1.8 ∧
      TELEGRAM_POLL_RESTART_POLICY.jitter = 0.25)
  ∧ (∀ (p : BackoffPolicy) (n : Nat),
        backoffBase p n = min p.maxMs (p.initialMs * p.factor ^ (n - 1)))
  ∧ (∀ (p : BackoffPolicy) (n : Nat), backoffBase p n ≤ p.maxMs)
  ∧ (∀ (n : Nat) (r : ℚ), |r| ≤ TELEGRAM_POLL_RESTART_POLICY.jitter →
        |computeBackoff TELEGRAM_POLL_RESTART_POLICY n r
            - backoffBase TELEGRAM_POLL_RESTART_POLICY n|
          ≤ TELEGRAM_POLL_RESTART_POLICY.jitter * backoffBase TELEGRAM_POLL_RESTART_POLICY n)
  ∧ backoffBase TELEGRAM_POLL_RESTART_POLICY 5 = min 30000 (2000 * (1.8 : ℚ) ^ 4)
  ∧ backoffBase TELEGRAM_POLL_RESTART_POLICY 5 = 104976 / 5 := by
  refine ⟨⟨rfl, rfl, rfl, rfl⟩, fun p n => rfl, fun p n => min_le_left _ _, ?_, rfl, ?_⟩
  · intro n r hr
    have hbase : (0 : ℚ) ≤ backoffBase TELEGRAM_POLL_RESTART_POLICY n := by
      unfold backoffBase TELEGRAM_POLL_RESTART_POLICY
      positivity
    have hdiff : computeBackoff TELEGRAM_POLL_RESTART_POLICY n r
        - backoffBase TELEGRAM_POLL_RESTART_POLICY n
        = backoffBase TELEGRAM_POLL_RESTART_POLICY n * r := by
      unfold computeBackoff
      ring
    rw [hdiff, abs_mul, abs_of_nonneg hbase, mul_comm]
    exact mul_le_mul_of_nonneg_right hr hbase
  · norm_num [backoffBase, TELEGRAM_POLL_RESTART_POLICY, min_def]

/-- C7 witness: at attempt 5 with the maximal positive jitter draw 1/4, the
jittered delay deviates from the un-jittered 20995.2 by at most a quarter
of it. -/
theorem backoff_policy_bounds_witness :
    |computeBackoff TELEGRAM_POLL_RESTART_POLICY 5 (1 / 4)
        - backoffBase TELEGRAM_POLL_RESTART_POLICY 5|
      ≤ TELEGRAM_POLL_RESTART_POLICY.jitter * backoffBase TELEGRAM_POLL_RESTART_POLICY 5 :=
  backoff_policy_bounds.2.2.2.1 5 (1 / 4)
    (by rw [abs_of_nonneg (by norm_num : (0 : ℚ) ≤ 1 / 4)]; norm_num [TELEGRAM_POLL_RESTART_POLICY])

end OpenClaw
